import Mathlib

/-!
Verification of the connection/correlation layer of tonlib-rs
(src/client/connection.rs), shallowly embedded in Lean.

The embedding translates the Rust source into pure Lean functions:
- machine integers (AtomicU32, u32 tags) become Nat with explicit wrap at 2^32;
- the DashMap request table becomes an association list with DashMap's
  replace-on-insert semantics;
- the tokio oneshot completion channel becomes an explicit channel state,
  with the receive side's liveness recorded as a Bool (send succeeds iff the
  receiver is still held);
- the tokio broadcast notification channel becomes a history list plus a
  receiver count, with per-receiver cursors and the documented
  drop-oldest-on-overflow (lag) behaviour;
- observer callbacks and channel deliveries are recorded as event lists;
- panics (the unwrap calls in the source) are modelled by Option, where
  none marks a panic.
-/

namespace TonlibRs

/-- Wrap modulus of the u32 request counter. -/
def U32_MOD : Nat := 2 ^ 32

/-- Transport-level error of the TL client (payload left abstract). -/
structure TlError where
  msg : String
deriving DecidableEq, Repr

/-- Result payload of the Init call (payload left abstract). -/
structure OptionsInfo where
  info : String
deriving DecidableEq, Repr

/-- Keystore selection passed to init (src/client/connection.rs lines 83-89). -/
inductive KeyStoreType where
  | Directory (directory : String)
  | InMemory
deriving DecidableEq, Repr

/-- Engine configuration built by init (src/client/connection.rs lines 112-118). -/
structure Config where
  config : String
  blockchain_name : Option String
  use_callbacks_for_network : Bool
  ignore_cache : Bool
deriving DecidableEq, Repr

/-- Options wrapper built by init (src/client/connection.rs lines 112-120). -/
structure Options where
  config : Config
  keystore_type : KeyStoreType
deriving DecidableEq, Repr

/-- The shapes of engine results that the connection layer inspects.
TonResult itself lives in src/tl (not under src/); the connection layer only
distinguishes the Error shape, the OptionsInfo shape, the SmcRunResult shape,
notification-shaped results and everything else, which is what this inductive
records. -/
inductive TonResult where
  | error (code : Int) (message : String)
  | optionsInfo (oi : OptionsInfo)
  | smcRunResult (payload : String)
  | updateSyncState (payload : String)
  | other (name : String) (payload : String)
deriving DecidableEq, Repr

/-- A domain notification distributed through the broadcast channel. -/
structure TonNotification where
  payload : String
deriving DecidableEq, Repr

/-- Modelled from the spec: TonNotification.from_result lives in src/tl, which
is not under src/. Spec section 4.5 step 7: "attempt to interpret the result
as a Notification; if interpretable, notify the observer and publish to
NotificationBus; if not interpretable, notify the observer of a parse failure
and drop the outcome." We model the interpretable results as the
updateSyncState shape and every other shape as uninterpretable. -/
def TonNotification.from_result : TonResult → Option TonNotification
  | TonResult.updateSyncState p => some ⟨p⟩
  | _ => none

/-- The error taxonomy of the client layer (src/client/error.rs, declared in
spec section 7): transport errors (TlError), structured engine errors
(TonlibError), unexpected-result errors, and the internal/lifecycle error. -/
inductive TonClientError where
  | TlError (e : TlError)
  | TonlibError (code : Int) (message : String)
  | UnexpectedTonResult (expected : String) (actual : TonResult)
  | InternalError
deriving DecidableEq, Repr

/-- Functions sent to the engine; the connection layer only builds Init and
SmcRunGetMethod itself and treats the rest as abstract. -/
inductive TonFunction where
  | Init (options : Options)
  | SmcRunGetMethod (id : Int) (method : String) (stack : List String)
  | Other (name : String)
deriving DecidableEq, Repr

/-- Models the Into conversion from a function to its static method name
(src/client/connection.rs line 172). -/
def TonFunction.methodName : TonFunction → String
  | .Init _ => "Init"
  | .SmcRunGetMethod _ _ _ => "SmcRunGetMethod"
  | .Other n => n

/-- One in-flight request (struct RequestData, src/client/connection.rs lines
22-26). The oneshot sender is modelled by receiverAlive: a send on the
completion channel succeeds iff the receiving end is still held. -/
structure RequestData where
  method : String
  send_time : Nat
  receiverAlive : Bool
deriving DecidableEq, Repr

/-- The request table (type RequestMap = DashMap of u32 to RequestData,
src/client/connection.rs line 28), as an association list. -/
abbrev RequestMap := List (Nat × RequestData)

/-- DashMap lookup: first entry with the given key. -/
def RequestMap.lookup (m : RequestMap) (k : Nat) : Option RequestData :=
  (m.find? (fun p => p.1 == k)).map Prod.snd

/-- DashMap insert: replaces any existing entry for the key. -/
def RequestMap.insertR (m : RequestMap) (k : Nat) (v : RequestData) : RequestMap :=
  (k, v) :: m.filter (fun p => p.1 != k)

/-- DashMap remove: returns the removed entry, if any, and the rest of the map. -/
def RequestMap.removeR : RequestMap → Nat → Option RequestData × RequestMap
  | [], _ => (none, [])
  | (k', v) :: rest, k =>
    if k' = k then (some v, rest)
    else
      let r := RequestMap.removeR rest k
      (r.1, (k', v) :: r.2)

/-! ## The notification broadcast channel

Model of the tokio broadcast channel used as NotificationBus
(src/client/connection.rs line 59: a channel of capacity 10000 whose initial
receiver is kept inside Inner). The channel keeps the full publish history;
each receiver is a cursor into that history; a send fails exactly when no
receiver is alive; a receiver more than capacity values behind observes a
lagged condition and its cursor jumps forward, as tokio documents. -/

/-- State of the broadcast channel: the published history, the number of
externally subscribed receivers, and whether the receiver stored inside Inner
is still alive. -/
structure BusState where
  capacity : Nat
  history : List TonNotification
  externalReceivers : Nat
  internalReceiverAlive : Bool
deriving DecidableEq, Repr

/-- Number of currently live receivers of the broadcast channel. -/
def BusState.receiverCount (b : BusState) : Nat :=
  b.externalReceivers + (if b.internalReceiverAlive then 1 else 0)

/-- Broadcast send: fails (returns none) exactly when there is no live
receiver, otherwise appends the value to the history. -/
def busPublish (b : BusState) (n : TonNotification) : Option BusState :=
  if b.receiverCount = 0 then none
  else some { b with history := b.history ++ [n] }

/-- A broadcast receiver: a cursor into the bus history pointing at the next
value to read. -/
structure BusReceiver where
  pos : Nat
deriving DecidableEq, Repr

/-- Broadcast subscribe: a fresh receiver that sees only values published
after this point. -/
def busSubscribe (b : BusState) : BusReceiver × BusState :=
  (⟨b.history.length⟩, { b with externalReceivers := b.externalReceivers + 1 })

/-- Outcome of one receive on a broadcast receiver. -/
inductive RecvOutcome where
  | empty
  | lagged (missed : Nat)
  | value (n : TonNotification)
deriving DecidableEq, Repr

/-- Broadcast receive: empty when the cursor is at the end of the history; a
lagged indicator (jumping the cursor forward) when more than capacity values
are outstanding; otherwise the next value in publish order. -/
def busRecv (b : BusState) (r : BusReceiver) : RecvOutcome × BusReceiver :=
  if h : r.pos < b.history.length then
    if b.history.length - r.pos > b.capacity then
      (RecvOutcome.lagged (b.history.length - b.capacity - r.pos),
        ⟨b.history.length - b.capacity⟩)
    else
      (RecvOutcome.value (b.history.get ⟨r.pos, h⟩), ⟨r.pos + 1⟩)
  else (RecvOutcome.empty, r)

/-- Perform count receives, collecting the successfully received values. -/
def busRecvList (b : BusState) : BusReceiver → Nat → List TonNotification × BusReceiver
  | r, 0 => ([], r)
  | r, n + 1 =>
    match busRecv b r with
    | (RecvOutcome.value v, r1) =>
      let rest := busRecvList b r1 n
      (v :: rest.1, rest.2)
    | (_, r1) => ([], r1)

/-- Publish a whole list, ignoring failed sends exactly as run_loop does. -/
def busPublishAll (b : BusState) (l : List TonNotification) : BusState :=
  l.foldl (fun b n => (busPublish b n).getD b) b

/-! ## Shared connection state and the invoke path -/

/-- struct Inner (src/client/connection.rs lines 31-38): the shared state. The
TlTonClient handle and the callback object carry no state the claims depend
on; callback invocations are recorded as events, and the engine's answers
enter the model as explicit inputs. The kept notification receiver appears as
bus.internalReceiverAlive. -/
structure Inner where
  counter : Nat
  request_map : RequestMap
  bus : BusState
deriving DecidableEq, Repr

/-- TonConnection.new (src/client/connection.rs lines 52-75): fresh counter at
0, empty request map, a broadcast channel of capacity 10000 whose initial
receiver is stored in the state itself. -/
def TonConnection.new : Inner :=
  { counter := 0
  , request_map := []
  , bus :=
      { capacity := 10000
      , history := []
      , externalReceivers := 0
      , internalReceiverAlive := true } }

/-- TonConnection.subscribe (src/client/connection.rs lines 132-134). -/
def TonConnection.subscribe (inner : Inner) : BusReceiver × Inner :=
  let rb := busSubscribe inner.bus
  (rb.1, { inner with bus := rb.2 })

deriving instance DecidableEq for Except

/-- Observer callback invocations, recorded as events (the
TonConnectionCallback trait of src/client, invoked by connection.rs). -/
inductive CallbackEvent where
  | on_invoke (id : Nat)
  | on_tl_error (e : TlError)
  | on_tonlib_error (id : Option Nat) (code : Int) (message : String)
  | on_invoke_result (id : Nat) (method : String) (elapsed : Nat)
      (result : Except TonClientError TonResult)
  | on_invoke_result_send_error (id : Nat) (elapsed : Nat)
  | on_notification (n : TonNotification)
  | on_ton_result_parse_error (r : TonResult)
deriving DecidableEq, Repr

/-- State of the oneshot completion channel of one invoke call, as seen right
after the send phase of invoke_on_connection. -/
inductive OneshotState where
  | waiting
  | sent (v : Except TonClientError TonResult)
deriving DecidableEq, Repr

/-- What the await of the oneshot receiver eventually yields: a value, or
closure of the channel without a value. -/
inductive AwaitOutcome where
  | received (v : Except TonClientError TonResult)
  | closed
deriving DecidableEq, Repr

/-- Result of the synchronous phase of invoke_on_connection. -/
structure InvokeStart where
  inner : Inner
  events : List CallbackEvent
  chan : OneshotState
  requestId : Nat
deriving DecidableEq, Repr

/-- u32 fetch_add with wrapping: the old value, as returned, and the wrapped
incremented value, as stored (src/client/connection.rs line 168). -/
def fetchAddU32 (c : Nat) : Nat × Nat := (c, (c + 1) % U32_MOD)

/-- The synchronous phase of invoke_on_connection (src/client/connection.rs
lines 164-184): take the next counter value, insert a RequestData with the
locally held completion channel, fire on_invoke, ask the engine to send; if
the send fails, remove the just-inserted entry (unwrap), fire on_tl_error and
push the transport error into the completion channel (unwrap). The two
unwraps are modelled by Option: none is a panic. sendResult is the engine's
answer to the send primitive. -/
def invoke_on_connection_start (inner : Inner) (function : TonFunction)
    (now : Nat) (sendResult : Except TlError Unit) : Option InvokeStart :=
  let cnt := (fetchAddU32 inner.counter).1
  let counter1 := (fetchAddU32 inner.counter).2
  let data : RequestData :=
    { method := function.methodName, send_time := now, receiverAlive := true }
  let map1 := RequestMap.insertR inner.request_map cnt data
  let ev1 := [CallbackEvent.on_invoke cnt]
  match sendResult with
  | Except.error e =>
    match RequestMap.removeR map1 cnt with
    | (none, _) => none
    | (some d, map2) =>
      let ev2 := ev1 ++ [CallbackEvent.on_tl_error e]
      if d.receiverAlive then
        some
          { inner := { inner with counter := counter1, request_map := map2 }
          , events := ev2
          , chan := OneshotState.sent (Except.error (TonClientError.TlError e))
          , requestId := cnt }
      else none
  | Except.ok _ =>
    some
      { inner := { inner with counter := counter1, request_map := map1 }
      , events := ev1
      , chan := OneshotState.waiting
      , requestId := cnt }

/-- The resumption phase of invoke_on_connection (src/client/connection.rs
lines 185-190): await the oneshot receiver; if the channel closed without a
value resolve to InternalError, otherwise return the delivered result. -/
def invoke_on_connection_finish (a : AwaitOutcome) :
    Except TonClientError TonResult :=
  match a with
  | AwaitOutcome.received r => r
  | AwaitOutcome.closed => Except.error TonClientError.InternalError

/-- init (src/client/connection.rs lines 103-130): the function it sends. -/
def initFunction (config : String) (blockchain_name : Option String)
    (use_callbacks_for_network : Bool) (ignore_cache : Bool)
    (keystore_type : KeyStoreType) : TonFunction :=
  TonFunction.Init
    { config :=
        { config := config
        , blockchain_name := blockchain_name
        , use_callbacks_for_network := use_callbacks_for_network
        , ignore_cache := ignore_cache }
    , keystore_type := keystore_type }

/-- The result handling of init (src/client/connection.rs lines 122-129),
as a function of what the underlying invoke resolved to: an OptionsInfo
result is returned, any other successful shape becomes an
UnexpectedTonResult error, an invoke error propagates through the question
mark operator unmodified. -/
def init (invokeResult : Except TonClientError TonResult) :
    Except TonClientError OptionsInfo :=
  match invokeResult with
  | Except.error e => Except.error e
  | Except.ok (TonResult.optionsInfo oi) => Except.ok oi
  | Except.ok r =>
      Except.error (TonClientError.UnexpectedTonResult "OptionsInfo" r)

/-! ## The background loop -/

/-- Decimal value of a digit string. -/
def digitsToNat (cs : List Char) : Nat :=
  cs.foldl (fun acc c => acc * 10 + (c.toNat - 48)) 0

/-- The tag parse of run_loop (src/client/connection.rs line 208,
s.parse of u32): an optional leading plus sign, then one or more decimal
digits, value below 2^32; anything else fails. -/
def parseU32 (s : String) : Option Nat :=
  let cs :=
    match s.data with
    | '+' :: rest => rest
    | cs => cs
  if cs.isEmpty then none
  else if cs.all (fun c => c.isDigit) then
    let n := digitsToNat cs
    if n < U32_MOD then some n else none
  else none

/-- What one call of the engine receive primitive yielded: none on timeout,
otherwise an engine result or transport error together with the optional
echoed tag. -/
abbrev RecvInput := Option (Except TlError TonResult × Option String)

/-- Effects of one loop iteration: the updated state, the observer events in
order, and the successful completion-channel deliveries (request id and
delivered value). -/
structure IterOut where
  inner : Inner
  events : List CallbackEvent
  delivered : List (Nat × Except TonClientError TonResult)
deriving DecidableEq, Repr

/-- The and_then chain of src/client/connection.rs line 209: remove any
pending request matching the parsed tag; no parsed tag means no removal. -/
def tagLookup (m : RequestMap) (mid : Option Nat) :
    Option RequestData × RequestMap :=
  match mid with
  | none => (none, m)
  | some i => RequestMap.removeR m i

/-- One iteration of the body of run_loop after a successful upgrade
(src/client/connection.rs lines 206-272): receive from the engine; parse the
optional tag; remove any matching pending request; classify the outcome,
firing on_tonlib_error or on_tl_error; then either deliver to the matched
request's completion channel (on failure fire on_invoke_result_send_error
and continue) or, uncorrelated, publish successful notification-shaped
results (send failures only logged) and report unparseable successful
results, ignoring uncorrelated errors. The unwrap of maybe_request_id at
line 227 is modelled by Option: none is a panic. -/
def run_loop_iter (inner : Inner) (now : Nat) (recv : RecvInput) :
    Option IterOut :=
  match recv with
  | none => some { inner := inner, events := [], delivered := [] }
  | some (ton_result, maybe_extra) =>
    let maybe_request_id := maybe_extra.bind (fun s => parseU32 s)
    let rm := tagLookup inner.request_map maybe_request_id
    let maybe_data := rm.1
    let inner1 := { inner with request_map := rm.2 }
    let classified : Except TonClientError TonResult × List CallbackEvent :=
      match ton_result with
      | Except.ok (TonResult.error code message) =>
        (Except.error (TonClientError.TonlibError code message),
          [CallbackEvent.on_tonlib_error maybe_request_id code message])
      | Except.error e =>
        (Except.error (TonClientError.TlError e),
          [CallbackEvent.on_tl_error e])
      | Except.ok r => (Except.ok r, [])
    let result := classified.1
    let ev0 := classified.2
    match maybe_data with
    | some data =>
      match maybe_request_id with
      | none => none
      | some request_id =>
        let duration := now - data.send_time
        let ev1 := ev0 ++
          [CallbackEvent.on_invoke_result request_id data.method duration result]
        if data.receiverAlive then
          some { inner := inner1, events := ev1
               , delivered := [(request_id, result)] }
        else
          some { inner := inner1
               , events := ev1 ++
                   [CallbackEvent.on_invoke_result_send_error request_id duration]
               , delivered := [] }
    | none =>
      match result with
      | Except.ok r =>
        match TonNotification.from_result r with
        | some n =>
          let ev1 := ev0 ++ [CallbackEvent.on_notification n]
          match busPublish inner1.bus n with
          | some bus1 =>
            some { inner := { inner1 with bus := bus1 }, events := ev1
                 , delivered := [] }
          | none =>
            some { inner := inner1, events := ev1, delivered := [] }
        | none =>
          some { inner := inner1
               , events := ev0 ++ [CallbackEvent.on_ton_result_parse_error r]
               , delivered := [] }
      | Except.error _ =>
        some { inner := inner1, events := ev0, delivered := [] }

/-- Control outcome of one pass through the outer loop of run_loop: either
control returns to the top of the loop, or run_loop returns and the thread
exits. -/
inductive LoopStep where
  | continues
  | returns
deriving DecidableEq, Repr

/-- Observable summary of one pass through the outer loop of run_loop. -/
structure BodyOut where
  step : LoopStep
  polled : Bool
  iter : Option IterOut
deriving DecidableEq, Repr

/-- One pass through the outer loop of run_loop (src/client/connection.rs
lines 204-276): if the weak reference upgrades, poll the engine and process
the answer; if the upgrade fails, the else branch only logs "Exiting event
loop" and falls through, so control returns to the top of the loop either
way — there is no break or return anywhere in the function. upgrade is the
result of weak_inner.upgrade(); none models a panic inside the iteration. -/
def run_loop_body (upgrade : Option Inner) (now : Nat) (recv : RecvInput) :
    Option BodyOut :=
  match upgrade with
  | some inner =>
    match run_loop_iter inner now recv with
    | some out =>
      some { step := LoopStep.continues, polled := true, iter := some out }
    | none => none
  | none =>
    some { step := LoopStep.continues, polled := false, iter := none }

/-! ## The request identity counter -/

/-- The counter value after k invokes on a fresh connection (the AtomicU32
starts at 0 and each invoke performs fetchAddU32). -/
def counterAfter : Nat → Nat
  | 0 => 0
  | k + 1 => (fetchAddU32 (counterAfter k)).2

/-- The request identity assigned to the k-th invoke (0-based) on a fresh
connection: fetch_add returns the value before the increment. -/
def nthRequestId (k : Nat) : Nat := (fetchAddU32 (counterAfter k)).1

/-! ## Connection-lifetime operation traces -/

/-- Dropping one external subscriber of the broadcast channel. -/
def busDropExternal (b : BusState) : BusState :=
  { b with externalReceivers := b.externalReceivers - 1 }

/-- The operations that can touch a live connection's shared state: a
subscribe call, the drop of an external subscriber, the synchronous phase of
an invoke, and one background-loop iteration. -/
inductive ConnOp where
  | subscribeOp
  | dropSubscriberOp
  | invokeStartOp (function : TonFunction) (now : Nat)
      (sendResult : Except TlError Unit)
  | loopIterOp (now : Nat) (recv : RecvInput)

/-- Effect of one operation on the shared state (a panic leaves the state
unchanged; the panic-freedom claims are settled separately). -/
def applyOp (inner : Inner) : ConnOp → Inner
  | ConnOp.subscribeOp => (TonConnection.subscribe inner).2
  | ConnOp.dropSubscriberOp => { inner with bus := busDropExternal inner.bus }
  | ConnOp.invokeStartOp f now sr =>
    match invoke_on_connection_start inner f now sr with
    | some st => st.inner
    | none => inner
  | ConnOp.loopIterOp now recv =>
    match run_loop_iter inner now recv with
    | some out => out.inner
    | none => inner

/-- The shared state reached from a fresh connection by a list of
operations. -/
def reach (ops : List ConnOp) : Inner := ops.foldl applyOp TonConnection.new

/-- The concrete result of the synchronous phase of a first invoke on a fresh
connection with a successful send. -/
def firstInvokeStart : InvokeStart :=
  { inner :=
      { counter := 1
      , request_map := [(0, { method := "m", send_time := 7, receiverAlive := true })]
      , bus := TonConnection.new.bus }
  , events := [CallbackEvent.on_invoke 0]
  , chan := OneshotState.waiting
  , requestId := 0 }

/-! ## Helper lemmas -/

theorem RequestMap.removeR_insertR (m : RequestMap) (k : Nat) (v : RequestData) :
    RequestMap.removeR (RequestMap.insertR m k v) k =
      (some v, m.filter (fun p => p.1 != k)) := by
  simp [RequestMap.insertR, RequestMap.removeR]

theorem RequestMap.lookup_filter_ne (m : RequestMap) (k : Nat) :
    RequestMap.lookup (m.filter (fun p => p.1 != k)) k = none := by
  induction m with
  | nil => simp [RequestMap.lookup]
  | cons p rest ih =>
    simp only [RequestMap.lookup] at ih ⊢
    by_cases h : p.1 = k
    · rw [List.filter_cons]
      simp [h, ih]
    · rw [List.filter_cons]
      have hne : (p.1 != k) = true := by simp [h]
      simp only [hne, if_pos]
      simp [List.find?, beq_eq_false_iff_ne.mpr h, ih]

theorem RequestMap.lookup_none_removeR (m : RequestMap) (k : Nat)
    (h : RequestMap.lookup m k = none) : RequestMap.removeR m k = (none, m) := by
  induction m with
  | nil => simp [RequestMap.removeR]
  | cons p rest ih =>
    simp only [RequestMap.lookup, List.find?] at h
    by_cases hk : p.1 = k
    · simp [hk, beq_iff_eq] at h
    · simp only [RequestMap.lookup] at ih
      have hne : (p.1 == k) = false := beq_eq_false_iff_ne.mpr hk
      rw [hne] at h
      simp [RequestMap.removeR, hk, ih h]

theorem tagLookup_none (m : RequestMap) (mid : Option Nat)
    (h : ∀ i, mid = some i → RequestMap.lookup m i = none) :
    tagLookup m mid = (none, m) := by
  cases mid with
  | none => rfl
  | some i => exact RequestMap.lookup_none_removeR m i (h i rfl)

theorem counterAfter_eq_mod (k : Nat) : counterAfter k = k % U32_MOD := by
  induction k with
  | zero => rfl
  | succ n ih =>
    simp only [counterAfter, fetchAddU32, ih]
    rw [Nat.mod_add_mod]

theorem busPublish_flags (b b' : BusState) (n : TonNotification)
    (h : busPublish b n = some b') :
    b'.internalReceiverAlive = b.internalReceiverAlive ∧
    b'.externalReceivers = b.externalReceivers ∧
    b'.capacity = b.capacity := by
  unfold busPublish at h
  by_cases hc : b.receiverCount = 0
  · simp [hc] at h
  · simp only [hc, if_neg, if_false] at h
    cases h
    exact ⟨rfl, rfl, rfl⟩

theorem busPublishAll_history (b : BusState) (l : List TonNotification)
    (h : b.receiverCount ≠ 0) :
    busPublishAll b l = { b with history := b.history ++ l } := by
  induction l generalizing b with
  | nil => simp [busPublishAll]
  | cons n l ih =>
    have hstep : (busPublish b n).getD b = { b with history := b.history ++ [n] } := by
      simp [busPublish, h]
    have hcount : ({ b with history := b.history ++ [n] } : BusState).receiverCount ≠ 0 := by
      simpa [BusState.receiverCount] using h
    simp only [busPublishAll, List.foldl_cons] at ih ⊢
    rw [hstep, ih _ hcount]
    simp

theorem get_append_length (x : TonNotification) (H xs : List TonNotification)
    (h : H.length < (H ++ x :: xs).length) :
    (H ++ x :: xs).get ⟨H.length, h⟩ = x := by
  induction H with
  | nil => rfl
  | cons a H ih =>
    have h' : H.length < (H ++ x :: xs).length := by
      simp [List.length_append]
    simpa using ih h'

theorem busRecvList_exact (cap : Nat) (H l : List TonNotification)
    (ext : Nat) (ia : Bool) (hlen : l.length ≤ cap) :
    (busRecvList
      { capacity := cap, history := H ++ l, externalReceivers := ext
      , internalReceiverAlive := ia }
      ⟨H.length⟩ l.length).1 = l := by
  induction l generalizing H with
  | nil => simp [busRecvList]
  | cons x xs ih =>
    have hlt : H.length < (H ++ x :: xs).length := by
      simp [List.length_append]
    have hout : (H ++ x :: xs).length - H.length = xs.length + 1 := by
      simp [List.length_append]
    have hnolag : ¬((H ++ x :: xs).length - H.length > cap) := by
      rw [hout]
      simpa using hlen
    simp only [busRecvList, busRecv]
    rw [dif_pos hlt]
    simp only [hnolag, if_neg, if_false]
    rw [get_append_length x H xs hlt]
    have hxs : xs.length ≤ cap := le_trans (Nat.le_succ _) hlen
    have ih2 := ih (H ++ [x]) hxs
    simp only [List.append_assoc, List.singleton_append, List.length_append,
      List.length_singleton] at ih2
    simp only [List.cons.injEq, true_and]
    convert congrArg id ih2 using 2

theorem invoke_start_bus (inner : Inner) (f : TonFunction) (now : Nat)
    (sr : Except TlError Unit) (st : InvokeStart)
    (h : invoke_on_connection_start inner f now sr = some st) :
    st.inner.bus = inner.bus := by
  cases sr with
  | ok u =>
    simp only [invoke_on_connection_start, fetchAddU32] at h
    cases h
    rfl
  | error e =>
    simp only [invoke_on_connection_start, fetchAddU32,
      RequestMap.removeR_insertR] at h
    simp only [if_pos] at h
    cases h
    rfl

theorem run_loop_iter_bus_flags (inner : Inner) (now : Nat) (recv : RecvInput)
    (out : IterOut) (h : run_loop_iter inner now recv = some out) :
    out.inner.bus.internalReceiverAlive = inner.bus.internalReceiverAlive ∧
    out.inner.bus.externalReceivers = inner.bus.externalReceivers ∧
    out.inner.bus.capacity = inner.bus.capacity := by
  cases recv with
  | none =>
    simp only [run_loop_iter] at h
    cases h
    exact ⟨rfl, rfl, rfl⟩
  | some pr =>
    obtain ⟨tr, mex⟩ := pr
    simp only [run_loop_iter] at h
    rcases htl : tagLookup inner.request_map
        (mex.bind (fun s => parseU32 s)) with ⟨md, m2⟩
    rw [htl] at h
    cases md with
    | some data =>
      cases hmid : mex.bind (fun s => parseU32 s) with
      | none =>
        rw [hmid] at h
        exact Option.noConfusion h
      | some i =>
        rw [hmid] at h
        cases hra : data.receiverAlive with
        | true =>
          simp only [hra, if_pos] at h
          cases h
          exact ⟨rfl, rfl, rfl⟩
        | false =>
          simp only [hra, Bool.false_eq_true, if_neg, if_false] at h
          cases h
          exact ⟨rfl, rfl, rfl⟩
    | none =>
      cases tr with
      | error e =>
        cases h
        exact ⟨rfl, rfl, rfl⟩
      | ok r =>
        cases r with
        | error c m =>
          cases h
          exact ⟨rfl, rfl, rfl⟩
        | optionsInfo oi =>
          cases h
          exact ⟨rfl, rfl, rfl⟩
        | smcRunResult p =>
          cases h
          exact ⟨rfl, rfl, rfl⟩
        | other nm p =>
          cases h
          exact ⟨rfl, rfl, rfl⟩
        | updateSyncState p =>
          simp only [TonNotification.from_result] at h
          cases hbp : busPublish
              ({ inner with request_map := m2 } : Inner).bus ⟨p⟩ with
          | some bus1 =>
            rw [hbp] at h
            cases h
            have := busPublish_flags _ _ _ hbp
            exact this
          | none =>
            rw [hbp] at h
            cases h
            exact ⟨rfl, rfl, rfl⟩

theorem applyOp_internal_alive (inner : Inner) (op : ConnOp)
    (h : inner.bus.internalReceiverAlive = true) :
    (applyOp inner op).bus.internalReceiverAlive = true := by
  cases op with
  | subscribeOp =>
    simpa [applyOp, TonConnection.subscribe, busSubscribe] using h
  | dropSubscriberOp => simpa [applyOp, busDropExternal] using h
  | invokeStartOp f now sr =>
    cases hst : invoke_on_connection_start inner f now sr with
    | none => simpa [applyOp, hst] using h
    | some st =>
      have hbus := invoke_start_bus inner f now sr st hst
      simp [applyOp, hst, hbus, h]
  | loopIterOp now recv =>
    cases hit : run_loop_iter inner now recv with
    | none => simpa [applyOp, hit] using h
    | some out =>
      have hfl := (run_loop_iter_bus_flags inner now recv out hit).1
      simp [applyOp, hit, hfl, h]

theorem reach_internal_alive (ops : List ConnOp) :
    (reach ops).bus.internalReceiverAlive = true := by
  suffices hgen : ∀ (l : List ConnOp) (inner : Inner),
      inner.bus.internalReceiverAlive = true →
      (l.foldl applyOp inner).bus.internalReceiverAlive = true by
    exact hgen ops TonConnection.new rfl
  intro l
  induction l with
  | nil =>
    intro inner h
    simpa using h
  | cons op rest ih =>
    intro inner h
    simpa [List.foldl_cons] using
      ih (applyOp inner op) (applyOp_internal_alive inner op h)

/-! ## Claim theorems -/

/-- C1: the claim says run_loop exits the thread (returns) once the weak
reference can no longer be upgraded. Evaluating the embedded loop at that
failing input shows the opposite: when upgrade is none the body performs no
engine poll but control still returns to the top of the loop (the else
branch of the source only logs "Exiting event loop"; run_loop has no break
or return), and no pass of the loop on any input ever yields the returns
step. -/
theorem c1_run_loop_never_returns :
    (∀ now recv, run_loop_body none now recv =
      some { step := LoopStep.continues, polled := false, iter := none }) ∧
    (∀ upgrade now recv,
      (run_loop_body upgrade now recv).map BodyOut.step ≠
        some LoopStep.returns) := by
  constructor
  · intro now recv
    rfl
  · intro upgrade now recv
    cases upgrade with
    | none => simp [run_loop_body]
    | some inner =>
      cases h : run_loop_iter inner now recv with
      | none => simp [run_loop_body, h]
      | some out => simp [run_loop_body, h]

/-- C4: init returns the OptionsInfo payload when the underlying invoke
succeeds with the OptionsInfo shape, fails with the unexpected-result error
on any other successful shape, and propagates an invoke error unmodified. -/
theorem c4_init_result_handling :
    (∀ oi, init (Except.ok (TonResult.optionsInfo oi)) = Except.ok oi) ∧
    (∀ r, (∀ oi, r ≠ TonResult.optionsInfo oi) →
      init (Except.ok r) =
        Except.error (TonClientError.UnexpectedTonResult "OptionsInfo" r)) ∧
    (∀ e, init (Except.error e) = Except.error e) := by
  refine ⟨fun oi => rfl, ?_, fun e => rfl⟩
  intro r h
  cases r with
  | optionsInfo oi => exact absurd rfl (h oi)
  | error c m => rfl
  | smcRunResult p => rfl
  | updateSyncState p => rfl
  | other n p => rfl

/-- C4 witness: the mismatch branch at a concrete non-OptionsInfo result. -/
theorem c4_init_result_handling_witness :
    init (Except.ok (TonResult.smcRunResult "x")) =
      Except.error (TonClientError.UnexpectedTonResult "OptionsInfo"
        (TonResult.smcRunResult "x")) :=
  c4_init_result_handling.2.1 (TonResult.smcRunResult "x")
    (fun _ h => TonResult.noConfusion h)

/-- C5: the first invoke on a fresh connection is assigned identity 0,
identities of later invokes are strictly larger until the u32 counter wraps,
and the synchronous phase of invoke indeed hands out the current counter
value while storing its wrapped increment. -/
theorem c5_request_identity_monotone :
    nthRequestId 0 = 0 ∧
    (∀ i j, i < j → j < U32_MOD → nthRequestId i < nthRequestId j) ∧
    (∀ inner function now sendResult st,
      invoke_on_connection_start inner function now sendResult = some st →
        st.requestId = inner.counter ∧
        st.inner.counter = (inner.counter + 1) % U32_MOD) := by
  refine ⟨rfl, ?_, ?_⟩
  · intro i j hij hj
    have hi : i < U32_MOD := lt_trans hij hj
    simp only [nthRequestId, fetchAddU32, counterAfter_eq_mod]
    rw [Nat.mod_eq_of_lt hi, Nat.mod_eq_of_lt hj]
    exact hij
  · intro inner function now sendResult st h
    cases sendResult with
    | ok u =>
      simp only [invoke_on_connection_start, fetchAddU32] at h
      cases h
      exact ⟨rfl, rfl⟩
    | error e =>
      simp only [invoke_on_connection_start, fetchAddU32,
        RequestMap.removeR_insertR] at h
      simp only [if_pos] at h
      cases h
      exact ⟨rfl, rfl⟩

/-- C5 witness: identity 0 goes to the first invoke, identity of the second
is larger, and the concrete first invoke on a fresh connection. -/
theorem c5_request_identity_monotone_witness :
    nthRequestId 0 < nthRequestId 1 ∧
    firstInvokeStart.requestId = TonConnection.new.counter ∧
    firstInvokeStart.inner.counter = (TonConnection.new.counter + 1) % U32_MOD :=
  ⟨c5_request_identity_monotone.2.1 0 1 (by decide)
      (by simp [U32_MOD]),
    c5_request_identity_monotone.2.2 TonConnection.new (TonFunction.Other "m")
      7 (Except.ok ()) firstInvokeStart (by decide)⟩

/-- C6: a completion channel that closes without a value resolves the invoke
to the InternalError variant, which is distinct from the structured engine
error variant and from the transport error variant. -/
theorem c6_closed_channel_internal_error :
    invoke_on_connection_finish AwaitOutcome.closed =
      Except.error TonClientError.InternalError ∧
    (∀ e, TonClientError.InternalError ≠ TonClientError.TlError e) ∧
    (∀ c m, TonClientError.InternalError ≠ TonClientError.TonlibError c m) := by
  refine ⟨rfl, ?_, ?_⟩
  · intro e h
    exact TonClientError.noConfusion h
  · intro c m h
    exact TonClientError.noConfusion h

/-- C6 witness: the distinctness at concrete errors. -/
theorem c6_closed_channel_internal_error_witness :
    TonClientError.InternalError ≠ TonClientError.TlError ⟨"boom"⟩ ∧
    TonClientError.InternalError ≠ TonClientError.TonlibError 500 "err" :=
  ⟨c6_closed_channel_internal_error.2.1 ⟨"boom"⟩,
    c6_closed_channel_internal_error.2.2 500 "err"⟩

/-- C2: when the engine's send primitive fails, invoke resolves to the
transport error with no action of the background loop needed: the
synchronous phase leaves no request-table entry for the identity, fires the
observer's on_tl_error hook, and has already pushed the TlError into the
completion channel, so the await resolves to that very error. -/
theorem c2_send_failure_resolved_synchronously (inner : Inner)
    (function : TonFunction) (now : Nat) (e : TlError) :
    ∃ st,
      invoke_on_connection_start inner function now (Except.error e) =
        some st ∧
      RequestMap.lookup st.inner.request_map st.requestId = none ∧
      CallbackEvent.on_tl_error e ∈ st.events ∧
      st.chan = OneshotState.sent (Except.error (TonClientError.TlError e)) ∧
      invoke_on_connection_finish
        (AwaitOutcome.received (Except.error (TonClientError.TlError e))) =
        Except.error (TonClientError.TlError e) := by
  refine ⟨InvokeStart.mk
      (Inner.mk ((inner.counter + 1) % U32_MOD)
        (inner.request_map.filter (fun p => p.1 != inner.counter))
        inner.bus)
      [CallbackEvent.on_invoke inner.counter, CallbackEvent.on_tl_error e]
      (OneshotState.sent (Except.error (TonClientError.TlError e)))
      inner.counter, ?_, ?_, ?_, rfl, rfl⟩
  · simp [invoke_on_connection_start, fetchAddU32,
      RequestMap.removeR_insertR]
  · exact RequestMap.lookup_filter_ne inner.request_map inner.counter
  · simp

/-- C3: an outcome whose tag is absent, unparseable, or without a pending
entry in the request table is never delivered to any completion channel and
leaves the table unchanged; if it is successful it is offered to the
observer and to the NotificationBus — published when it parses as a
notification, reported as a parse error and dropped otherwise; uncorrelated
error outcomes are neither published nor delivered. -/
theorem c3_uncorrelated_outcomes (inner : Inner) (now : Nat)
    (ton_result : Except TlError TonResult) (maybe_extra : Option String)
    (h : ∀ i, maybe_extra.bind (fun s => parseU32 s) = some i →
      RequestMap.lookup inner.request_map i = none) :
    ∃ out,
      run_loop_iter inner now (some (ton_result, maybe_extra)) = some out ∧
      out.delivered = [] ∧
      out.inner.request_map = inner.request_map ∧
      (∀ r, ton_result = Except.ok r → (∀ c m, r ≠ TonResult.error c m) →
        (∀ n, TonNotification.from_result r = some n →
          CallbackEvent.on_notification n ∈ out.events ∧
          out.inner.bus = (busPublish inner.bus n).getD inner.bus) ∧
        (TonNotification.from_result r = none →
          CallbackEvent.on_ton_result_parse_error r ∈ out.events ∧
          out.inner.bus = inner.bus)) ∧
      (∀ e, ton_result = Except.error e →
        out.inner.bus = inner.bus ∧
        ∀ n, CallbackEvent.on_notification n ∉ out.events) ∧
      (∀ c m, ton_result = Except.ok (TonResult.error c m) →
        out.inner.bus = inner.bus ∧
        ∀ n, CallbackEvent.on_notification n ∉ out.events) := by
  have htl : tagLookup inner.request_map
      (maybe_extra.bind (fun s => parseU32 s)) = (none, inner.request_map) :=
    tagLookup_none _ _ h
  cases ton_result with
  | error e =>
    refine ⟨IterOut.mk inner [CallbackEvent.on_tl_error e] [],
      by simp [run_loop_iter, htl], rfl, rfl, ?_, ?_, ?_⟩
    · intro r hr
      exact absurd hr (by simp)
    · intro e' he'
      exact ⟨rfl, by simp⟩
    · intro c m hr
      exact absurd hr (by simp)
  | ok r =>
    cases r with
    | error c m =>
      refine ⟨IterOut.mk inner
        [CallbackEvent.on_tonlib_error
          (maybe_extra.bind (fun s => parseU32 s)) c m] [],
        by simp [run_loop_iter, htl], rfl, rfl, ?_, ?_, ?_⟩
      · intro r0 hr0 hne
        cases hr0
        exact absurd rfl (hne c m)
      · intro e' he'
        exact absurd he' (by simp)
      · intro c' m' hr'
        exact ⟨rfl, by simp⟩
    | optionsInfo oi =>
      refine ⟨IterOut.mk inner
        [CallbackEvent.on_ton_result_parse_error (TonResult.optionsInfo oi)] [],
        by simp [run_loop_iter, htl, TonNotification.from_result], rfl, rfl,
        ?_, ?_, ?_⟩
      · intro r0 hr0 hne
        cases hr0
        refine ⟨?_, ?_⟩
        · intro n hn
          exact absurd hn (by simp [TonNotification.from_result])
        · intro hn
          exact ⟨by simp, rfl⟩
      · intro e' he'
        exact absurd he' (by simp)
      · intro c' m' hr'
        exact absurd hr' (by simp)
    | smcRunResult p =>
      refine ⟨IterOut.mk inner
        [CallbackEvent.on_ton_result_parse_error (TonResult.smcRunResult p)] [],
        by simp [run_loop_iter, htl, TonNotification.from_result], rfl, rfl,
        ?_, ?_, ?_⟩
      · intro r0 hr0 hne
        cases hr0
        refine ⟨?_, ?_⟩
        · intro n hn
          exact absurd hn (by simp [TonNotification.from_result])
        · intro hn
          exact ⟨by simp, rfl⟩
      · intro e' he'
        exact absurd he' (by simp)
      · intro c' m' hr'
        exact absurd hr' (by simp)
    | other nm p =>
      refine ⟨IterOut.mk inner
        [CallbackEvent.on_ton_result_parse_error (TonResult.other nm p)] [],
        by simp [run_loop_iter, htl, TonNotification.from_result], rfl, rfl,
        ?_, ?_, ?_⟩
      · intro r0 hr0 hne
        cases hr0
        refine ⟨?_, ?_⟩
        · intro n hn
          exact absurd hn (by simp [TonNotification.from_result])
        · intro hn
          exact ⟨by simp, rfl⟩
      · intro e' he'
        exact absurd he' (by simp)
      · intro c' m' hr'
        exact absurd hr' (by simp)
    | updateSyncState p =>
      cases hp : busPublish inner.bus ⟨p⟩ with
      | some bus1 =>
        refine ⟨IterOut.mk (Inner.mk inner.counter inner.request_map bus1)
          [CallbackEvent.on_notification ⟨p⟩] [],
          by simp [run_loop_iter, htl, TonNotification.from_result, hp],
          rfl, rfl, ?_, ?_, ?_⟩
        · intro r0 hr0 hne
          cases hr0
          refine ⟨?_, ?_⟩
          · intro n hn
            cases hn
            exact ⟨by simp, by simp [hp]⟩
          · intro hn
            exact absurd hn (by simp [TonNotification.from_result])
        · intro e' he'
          exact absurd he' (by simp)
        · intro c' m' hr'
          exact absurd hr' (by simp)
      | none =>
        refine ⟨IterOut.mk inner [CallbackEvent.on_notification ⟨p⟩] [],
          by simp [run_loop_iter, htl, TonNotification.from_result, hp],
          rfl, rfl, ?_, ?_, ?_⟩
        · intro r0 hr0 hne
          cases hr0
          refine ⟨?_, ?_⟩
          · intro n hn
            cases hn
            exact ⟨by simp, by simp [hp]⟩
          · intro hn
            exact absurd hn (by simp [TonNotification.from_result])
        · intro e' he'
          exact absurd he' (by simp)
        · intro c' m' hr'
          exact absurd hr' (by simp)

/-- C3 witness: a successful notification-shaped outcome with no tag on a
fresh connection is published, not delivered. -/
theorem c3_uncorrelated_outcomes_witness :
    ∃ out,
      run_loop_iter TonConnection.new 5
        (some (Except.ok (TonResult.updateSyncState "s"), none)) = some out ∧
      out.delivered = [] ∧
      out.inner.request_map = TonConnection.new.request_map ∧
      (∀ r, (Except.ok (TonResult.updateSyncState "s") :
            Except TlError TonResult) = Except.ok r →
        (∀ c m, r ≠ TonResult.error c m) →
        (∀ n, TonNotification.from_result r = some n →
          CallbackEvent.on_notification n ∈ out.events ∧
          out.inner.bus =
            (busPublish TonConnection.new.bus n).getD TonConnection.new.bus) ∧
        (TonNotification.from_result r = none →
          CallbackEvent.on_ton_result_parse_error r ∈ out.events ∧
          out.inner.bus = TonConnection.new.bus)) ∧
      (∀ e, (Except.ok (TonResult.updateSyncState "s") :
            Except TlError TonResult) = Except.error e →
        out.inner.bus = TonConnection.new.bus ∧
        ∀ n, CallbackEvent.on_notification n ∉ out.events) ∧
      (∀ c m, (Except.ok (TonResult.updateSyncState "s") :
            Except TlError TonResult) = Except.ok (TonResult.error c m) →
        out.inner.bus = TonConnection.new.bus ∧
        ∀ n, CallbackEvent.on_notification n ∉ out.events) :=
  c3_uncorrelated_outcomes TonConnection.new 5
    (Except.ok (TonResult.updateSyncState "s")) none
    (fun _ hi => Option.noConfusion hi)

/-- C9: the two unwraps in the send-failure branch of invoke cannot panic:
for every state, function and transport error the synchronous phase returns
some — the removal of the just-inserted entry always finds it, and the send
into the locally held completion channel always succeeds. -/
theorem c9_send_failure_unwraps_safe (inner : Inner) (function : TonFunction)
    (now : Nat) (e : TlError) :
    (invoke_on_connection_start inner function now
      (Except.error e)).isSome = true := by
  simp [invoke_on_connection_start, fetchAddU32, RequestMap.removeR_insertR]

/-- C7: when a matching pending request is found but its caller abandoned the
await (the completion channel's receive side is gone), the loop fires
on_invoke_result_send_error with the identity and the elapsed time, delivers
nothing, does not panic, and the outer loop continues. -/
theorem c7_delivery_failure_nonfatal (inner : Inner) (now : Nat)
    (ton_result : Except TlError TonResult) (s : String) (i : Nat)
    (data : RequestData) (m2 : RequestMap)
    (hp : parseU32 s = some i)
    (hr : RequestMap.removeR inner.request_map i = (some data, m2))
    (hdead : data.receiverAlive = false) :
    ∃ out,
      run_loop_iter inner now (some (ton_result, some s)) = some out ∧
      CallbackEvent.on_invoke_result_send_error i (now - data.send_time) ∈
        out.events ∧
      out.delivered = [] ∧
      run_loop_body (some inner) now (some (ton_result, some s)) =
        some { step := LoopStep.continues, polled := true
             , iter := some out } := by
  simp only [run_loop_iter, run_loop_body, Option.bind, hp, tagLookup, hr,
    hdead]
  refine ⟨_, rfl, ?_, rfl, rfl⟩
  simp

/-- C7 witness: a concrete abandoned request. -/
theorem c7_delivery_failure_nonfatal_witness :
    ∃ out,
      run_loop_iter
        (Inner.mk 0 [(3, RequestData.mk "m" 2 false)] TonConnection.new.bus)
        5 (some (Except.ok (TonResult.other "q" "p"), some "3")) = some out ∧
      CallbackEvent.on_invoke_result_send_error 3 (5 - 2) ∈ out.events ∧
      out.delivered = [] ∧
      run_loop_body
        (some (Inner.mk 0 [(3, RequestData.mk "m" 2 false)]
          TonConnection.new.bus))
        5 (some (Except.ok (TonResult.other "q" "p"), some "3")) =
        some { step := LoopStep.continues, polled := true
             , iter := some out } :=
  c7_delivery_failure_nonfatal
    (Inner.mk 0 [(3, RequestData.mk "m" 2 false)] TonConnection.new.bus)
    5 (Except.ok (TonResult.other "q" "p")) "3" 3
    (RequestData.mk "m" 2 false) []
    (by decide) (by decide) rfl

/-- C8: subscribing positions a fresh independent receiver at the current end
of the notification history, so it can see nothing published earlier, and
after any list of publishes that fits the channel capacity the receiver
receives exactly that list in publish order. -/
theorem c8_subscriber_receives_in_order (b0 : BusState)
    (l : List TonNotification) (hlen : l.length ≤ b0.capacity) :
    (busSubscribe b0).1.pos = b0.history.length ∧
    (busRecvList (busPublishAll (busSubscribe b0).2 l) (busSubscribe b0).1
      l.length).1 = l := by
  obtain ⟨cap, H, ext, ia⟩ := b0
  refine ⟨rfl, ?_⟩
  have hcount : (busSubscribe (BusState.mk cap H ext ia)).2.receiverCount ≠ 0 := by
    simp [busSubscribe, BusState.receiverCount]
  rw [busPublishAll_history _ _ hcount]
  exact busRecvList_exact cap H l (ext + 1) ia hlen

/-- C8 witness: two publishes on the connection's own bus after a subscribe
are received in order. -/
theorem c8_subscriber_receives_in_order_witness :
    (busSubscribe TonConnection.new.bus).1.pos =
      TonConnection.new.bus.history.length ∧
    (busRecvList
      (busPublishAll (busSubscribe TonConnection.new.bus).2
        [TonNotification.mk "a", TonNotification.mk "b"])
      (busSubscribe TonConnection.new.bus).1 2).1 =
      [TonNotification.mk "a", TonNotification.mk "b"] :=
  c8_subscriber_receives_in_order TonConnection.new.bus
    [TonNotification.mk "a", TonNotification.mk "b"] (by decide)

/-- C10: the shared state itself keeps one receiver of the notification
channel for its whole lifetime, so along every operation trace from a fresh
connection the receiver count stays positive and a publish never hits the
zero-subscriber error branch: a notification published with no external
subscriber is buffered in that internal receiver rather than rejected. -/
theorem c10_internal_receiver_prevents_publish_error (ops : List ConnOp) :
    (reach ops).bus.internalReceiverAlive = true ∧
    (reach ops).bus.receiverCount ≠ 0 ∧
    (∀ n, (busPublish (reach ops).bus n).isSome = true) := by
  have h1 := reach_internal_alive ops
  refine ⟨h1, ?_, ?_⟩
  · simp [BusState.receiverCount, h1]
  · intro n
    simp [busPublish, BusState.receiverCount, h1]

end TonlibRs
